import Mathlib

/-!
Shallow embedding of the request/response forwarding pipeline of the
aad-auth-proxy repository (src/src/handler/handler.go and its collaborators),
together with theorems settling the frozen claims about it.

Conventions of the embedding:
* Go interface values that may be nil become `Option`.
* A Go runtime panic (method call on a nil interface) is made explicit as the
  `GoPanic` error of an `Except`.
* `http.Header` becomes an association list of (key, value) entries; `Set`,
  `Get` and value lookup compare keys through Go's canonical MIME key form.
* Machine `int64` values stay as `Int`; the one place a width matters
  (`strconv.ParseInt(s, 10, 32)`) checks the 32-bit range explicitly.
* The `requests_total` counter samples are tracked explicitly because several
  claims count them; the other instruments (duration histogram, byte counters)
  are not observed by any claim and are not tracked.
-/

namespace AadAuthProxy

/-- One character step of Go's `textproto.CanonicalMIMEHeaderKey`: uppercase a
letter that starts the key or follows a hyphen, lowercase every other letter.
(Go leaves keys with non-token bytes untouched; every key appearing in this
development is a valid token.) -/
def canonChars : Bool → List Char → List Char
  | _, [] => []
  | up, c :: rest =>
    if c = '-' then c :: canonChars true rest
    else (if up then c.toUpper else c.toLower) :: canonChars false rest

/-- Go's canonical MIME header key form, used by `http.Header.Set`/`Get`. -/
def canonKey (s : String) : String :=
  ⟨canonChars true s.toList⟩

/-- An `http.Header`: a multiset of (key, value) entries, keys compared
canonically. -/
abbrev Headers := List (String × String)

/-- `http.Header.Set k v`: delete every value stored under the canonical form
of `k`, then store the single value `v`. -/
def headerSet (hs : Headers) (k v : String) : Headers :=
  hs.filter (fun p => canonKey p.1 != canonKey k) ++ [(k, v)]

/-- All values a header carries for key `k` (canonical comparison), in order. -/
def headerGetAll (hs : Headers) (k : String) : List String :=
  (hs.filter (fun p => canonKey p.1 == canonKey k)).map Prod.snd

/-- `http.Header.Get k`: first stored value for `k`, or `""` when absent. -/
def headerGet (hs : Headers) (k : String) : String :=
  match headerGetAll hs k with
  | [] => ""
  | v :: _ => v

/-- `strconv.ParseInt(s, 10, 32)`: optional sign, one or more decimal digits,
result within the signed 32-bit range; `none` models a non-nil parse error. -/
def parseGoInt32 (s : String) : Option Int :=
  let (sign, digits) :=
    match s.toList with
    | '+' :: rest => ((1 : Int), rest)
    | '-' :: rest => ((-1 : Int), rest)
    | cs => ((1 : Int), cs)
  if digits = [] then none
  else if digits.all Char.isDigit then
    let v : Int := sign * (digits.foldl (fun a c => a * 10 + (c.toNat - '0'.toNat)) 0 : Nat)
    if -(2 ^ 31) ≤ v ∧ v ≤ 2 ^ 31 - 1 then some v else none
  else none

/-- Header name constants of the repository's `constants` package (the package
itself is not under src/; the names are fixed by the spec's wire contract,
§6 of the spec, and by the literals in handler.go). -/
def HEADER_AUTHORIZATION : String := "Authorization"

/-- Status-Code signalling header name (spec §6, handler.go literals). -/
def HEADER_STATUS_CODE : String := "Status-Code"

/-- Content-Encoding header name. -/
def HEADER_CONTENT_ENCODING : String := "Content-Encoding"

/-- Content-Length header name. -/
def HEADER_CONTENT_LENGTH : String := "Content-Length"

/-- User-Agent header name. -/
def HEADER_USER_AGENT : String := "User-Agent"

/-- A Go runtime panic made explicit; the only one this code can raise is a
method call through a nil interface value. -/
inductive GoPanic
  | nilInterfaceCall
deriving Repr, DecidableEq

/-- The Token Provider collaborator: `GetAccessToken()` returns a token string
and an error; both fields describe what the next call returns. -/
structure TokenProvider where
  token : String
  errMsg : Option String
deriving Repr, DecidableEq

/-- `tokenProvider.GetAccessToken()` where `tokenProvider` is a possibly nil
Go interface: calling through nil panics, otherwise the provider's pair is
returned. -/
def getAccessToken : Option TokenProvider → Except GoPanic (String × Option String)
  | none => .error .nilInterfaceCall
  | some tp => .ok (tp.token, tp.errMsg)

/-- The `utils.IConfiguration` values the handler consumes (the utils package
is not under src/; fields mirror the two getters handler.go calls). -/
structure Configuration where
  getTargetHost : String
  getAdditionalHeaders : Option (List (String × String))
deriving Repr, DecidableEq

/-- The `httputil.ReverseProxy` value; the handler only checks it for nil and
dispatches through it, so it carries no data here. -/
structure ReverseProxy where
deriving Repr, DecidableEq

/-- The `Handler` struct of handler.go. -/
structure Handler where
  targetHost : String
  tokenProvider : Option TokenProvider
  configuration : Configuration
  overrideHeaders : Option (List (String × String))
deriving Repr, DecidableEq

/-- `NewHandler` (handler.go lines 31-57): rejects nil collaborators, keeps the
configured additional headers only when non-nil and non-empty. -/
def NewHandler (proxy : Option ReverseProxy) (tokenProvider : Option TokenProvider)
    (configuration : Option Configuration) : Except String Handler :=
  if proxy.isNone then .error "proxy cannot be nil"
  else if tokenProvider.isNone then .error "tokenProvider cannot be nil"
  else
    match configuration with
    | none => .error "configuration cannot be nil"
    | some cfg =>
      let overrideHeaders : Option (List (String × String)) :=
        match cfg.getAdditionalHeaders with
        | some ah => if ah.length > 0 then some ah else none
        | none => none
      .ok { targetHost := cfg.getTargetHost
            tokenProvider := tokenProvider
            configuration := cfg
            overrideHeaders := overrideHeaders }

/-- `checkTokenProvider` (handler.go lines 161-185), exactly as written: the
body that fetches and inspects the token sits under `if tokenProvider == nil`,
so a present provider falls through to `return nil` untested, and an absent
one reaches `GetAccessToken` on the nil interface, which panics. -/
def checkTokenProvider (handler : Handler) : Except GoPanic (Option String) :=
  if handler.tokenProvider.isNone then
    match getAccessToken handler.tokenProvider with
    | .error p => .error p
    | .ok (token, err) =>
      if token.length = 0 ∨ err.isSome then
        .ok (some (match err with
          | none => "handler, tokenProvider is not instantiated, cannot forward request"
          | some e => e))
      else
        .ok none
  else
    .ok none

/-- An `http.Request` restricted to the fields this pipeline reads or writes. -/
structure Request where
  method : String
  urlScheme : String
  urlHost : String
  urlPath : String
  host : String
  headers : Headers
  contentLength : Int
deriving Repr, DecidableEq

/-- An `http.Response` restricted to the fields this pipeline reads or writes.
`bodyStream` is the sequence of bytes still readable from `response.Body`:
reading (for example by the body codec) consumes it. -/
structure Response where
  statusCode : Int
  headers : Headers
  bodyStream : List Nat
  contentLength : Int
deriving Repr, DecidableEq

/-- One `requests_total` counter sample with its attribute tuple. -/
structure RequestsTotalSample where
  target_host : String
  method : String
  path : String
  user_agent : String
  status_code : Int
deriving Repr, DecidableEq

/-- Modelled from the spec: the uniform failure response written by
`FailRequest` (declared in this repository's utils package, which is not under
src/). Per spec §6 it carries the caller-specified status, an error-kind tag
string, and the underlying error message (absent when the error passed in is
nil). -/
structure FailureResponse where
  status : Int
  errorKind : String
  errMsg : Option String
deriving Repr, DecidableEq

/-- Observable steps of `handleError`, in the order the code performs them. -/
inductive Event
  | metric (s : RequestsTotalSample)
  | fail (fr : FailureResponse)
deriving Repr, DecidableEq

/-- The `requests_total` samples among a list of events, in order. -/
def samplesOfEvents (evs : List Event) : List RequestsTotalSample :=
  evs.filterMap (fun e => match e with
    | .metric s => some s
    | .fail _ => none)

/-- Modelled from the spec: the body codec `utils.NewEncoderDecoder` (not under
src/), consumed as `Decode(encoding, body) -> bytes` and
`Encode(encoding, bytes) -> buffer` (spec §1). `decodeRes` is the result of a
decode attempt reading the body stream; on a successful decode the stream was
read to its end, on a failed decode `decodeLeftover` says what remains unread. -/
structure EncoderDecoder where
  decodeRes : String → List Nat → Except String (List Nat)
  decodeLeftover : String → List Nat → List Nat
  encodeRes : String → List Nat → Except String (List Nat)

/-- `logResponse` (handler.go lines 372-403): decode the body per its
Content-Encoding, log it, re-encode it, and only on full success put the
re-encoded bytes back together with the matching ContentLength and
Content-Length / Content-Encoding headers. The decode attempt reads from
`response.Body`, so the stream is consumed even when a later step fails. -/
def logResponse (ed : EncoderDecoder) (response : Response) : Response :=
  let encoding := headerGet response.headers HEADER_CONTENT_ENCODING
  match ed.decodeRes encoding response.bodyStream with
  | .error _ =>
    -- decode failed: the code logs and returns; the body keeps whatever the
    -- failed decode attempt left unread
    { response with bodyStream := ed.decodeLeftover encoding response.bodyStream }
  | .ok responseBody =>
    -- decode succeeded: `response.Body` was read to EOF
    let response := { response with bodyStream := [] }
    match ed.encodeRes encoding responseBody with
    | .error _ => response
    | .ok buffer =>
      { response with
        bodyStream := buffer
        contentLength := (buffer.length : Int)
        headers := headerSet
          (headerSet response.headers HEADER_CONTENT_LENGTH (toString buffer.length))
          HEADER_CONTENT_ENCODING encoding }

/-- `modifyResponse` (handler.go lines 307-369): emit one `requests_total`
sample keyed on the outbound request and the response status (when the counter
instrument is acquired), write the status into the Status-Code header, and for
a status ≥ 400 run the diagnostic body logger. Returns the mutated response
and the emitted `requests_total` samples. -/
def modifyResponse (ed : EncoderDecoder) (instrumentOk : Bool) (request : Request)
    (response : Response) : Response × List RequestsTotalSample :=
  let samples := if instrumentOk then
      [{ target_host := request.urlHost
         method := request.method
         path := request.urlPath
         user_agent := headerGet request.headers HEADER_USER_AGENT
         status_code := response.statusCode }]
    else []
  let response := { response with
    headers := headerSet response.headers HEADER_STATUS_CODE (toString response.statusCode) }
  let response := if 400 ≤ response.statusCode then logResponse ed response else response
  (response, samples)

/-- `modifyRequest` (handler.go lines 227-255): rewrite scheme, URL host and
Host to the configured target. (Its `request_bytes_total` sample is not
observed by any claim.) -/
def modifyRequest (request : Request) (targetHost : String) : Request :=
  { request with urlScheme := "https", urlHost := targetHost, host := targetHost }

/-- `handleError` (handler.go lines 258-304): parse a status from the response
writer's Status-Code header (falling back to 503 on a parse error), emit one
`requests_total` sample keyed on the outbound request with that status (when
the counter instrument is acquired), then call `FailRequest` with that status,
the error's message as the kind tag, and the error itself. -/
def handleError (writerHeaders : Headers) (request : Request) (responseErr : String)
    (instrumentOk : Bool) : List Event :=
  let status_code : Int :=
    match parseGoInt32 (headerGet writerHeaders HEADER_STATUS_CODE) with
    | some n => n
    | none => 503
  (if instrumentOk then
      [Event.metric
        { target_host := request.urlHost
          method := request.method
          path := request.urlPath
          user_agent := headerGet request.headers HEADER_USER_AGENT
          status_code := status_code }]
    else [])
  ++ [Event.fail { status := status_code, errorKind := responseErr, errMsg := some responseErr }]

/-- `range` over the override-header map followed by `Header.Set` on each
entry (handler.go lines 106-110); the list order realizes one admissible Go
map iteration order. -/
def setAllHeaders (hs : Headers) : List (String × String) → Headers
  | [] => hs
  | (k, v) :: rest => setAllHeaders (headerSet hs k v) rest

/-- Whether the canonical forms of the keys of a key-value list are pairwise
distinct (what Go guarantees for map keys only up to exact string equality). -/
def canonDistinctB : List (String × String) → Bool
  | [] => true
  | kv :: rest =>
    rest.all (fun kv2 => canonKey kv.1 != canonKey kv2.1) && canonDistinctB rest

/-- The request the proxy dispatches to the backend: the inbound request after
the bearer-token injection (handler.go line 103), the override-header loop
(lines 106-110), and the Director's host/scheme rewrite (`modifyRequest`). -/
def outboundRequest (handler : Handler) (token : String) (request : Request) : Request :=
  let request := { request with
    headers := headerSet request.headers HEADER_AUTHORIZATION ("Bearer " ++ token) }
  let request :=
    match handler.overrideHeaders with
    | none => request
    | some ohs => { request with headers := setAllHeaders request.headers ohs }
  modifyRequest request handler.targetHost

/-- What the transport behind `proxy.ServeHTTP` does with the dispatched
request: deliver a backend response (then `modifyResponse` runs) or fail
(then `handleError` runs). -/
inductive Backend
  | respond (response : Response)
  | unreachable (errMsg : String)
deriving Repr, DecidableEq

/-- Request-independent environment of one `ProxyRequest` run: whether the
`Int64Counter` instrument acquisitions succeed, the response writer's header
map as `handleError` would observe it, and the transport outcome. -/
structure World where
  instrumentOk : Bool
  writerHeaders : Headers
  backend : Backend
deriving Repr, DecidableEq

/-- How one `ProxyRequest` run ended. -/
inductive Outcome
  | gated (fr : FailureResponse)
  | responded (response : Response)
  | dispatchFailed (evs : List Event)
deriving Repr, DecidableEq

/-- Observable result of one `ProxyRequest` run: the `requests_total` samples
emitted anywhere in the run, the request handed to the proxy transport (none
when the availability gate rejected), and the terminal outcome. -/
structure PipelineOut where
  samples : List RequestsTotalSample
  dispatched : Option Request
  outcome : Outcome
deriving Repr, DecidableEq

/-- `ProxyRequest` (handler.go lines 60-141) from the point where
`checkTokenProvider`'s returned error is in hand (the value of `err` at line
77). On a non-nil gate error: one `requests_total` sample with status 503
keyed on the inbound request (when the instrument is acquired), then
`FailRequest` — but line 91's `requestCountIntrument, err := ...` redeclares
`err`, so the error `FailRequest` receives at line 97 is the instrument
acquisition error, not the gate's. On a nil gate error: fetch the token
(its error discarded, line 102), build the outbound request, dispatch, and
run `modifyResponse` or `handleError` per the transport outcome. -/
def proxyRequestWithGate (ed : EncoderDecoder) (handler : Handler) (request : Request)
    (w : World) : Option String → Except GoPanic PipelineOut
  | some _ =>
    let samples := if w.instrumentOk then
        [{ target_host := request.urlHost
           method := request.method
           path := request.urlPath
           user_agent := headerGet request.headers HEADER_USER_AGENT
           status_code := (503 : Int) }]
      else []
    let shadowedErr : Option String :=
      if w.instrumentOk then none else some "instrument acquisition failed"
    .ok { samples := samples
          dispatched := none
          outcome := .gated { status := 503
                              errorKind := "AuthenticationTokenNotFound"
                              errMsg := shadowedErr } }
  | none =>
    match getAccessToken handler.tokenProvider with
    | .error p => .error p
    | .ok (token, _) =>
      let outbound := outboundRequest handler token request
      match w.backend with
      | .respond response =>
        let mr := modifyResponse ed w.instrumentOk outbound response
        .ok { samples := mr.2
              dispatched := some outbound
              outcome := .responded mr.1 }
      | .unreachable msg =>
        let evs := handleError w.writerHeaders outbound msg w.instrumentOk
        .ok { samples := samplesOfEvents evs
              dispatched := some outbound
              outcome := .dispatchFailed evs }

/-- `ProxyRequest` end to end: run the availability gate, then the rest of the
handler body on the gate's returned error. -/
def proxyRequest (ed : EncoderDecoder) (handler : Handler) (request : Request)
    (w : World) : Except GoPanic PipelineOut :=
  match checkTokenProvider handler with
  | .error p => .error p
  | .ok gateErr => proxyRequestWithGate ed handler request w gateErr

/-- How one `ReadinessCheck` run ended. -/
inductive ReadinessOut
  | ready (status : Int)
  | failed (fr : FailureResponse)
deriving Repr, DecidableEq

/-- `ReadinessCheck` (handler.go lines 144-157): run the availability gate; on
a non-nil error `FailRequest(503, "AuthenticationTokenNotFound", err)` with
the gate's own error, otherwise write 200. -/
def readinessCheck (handler : Handler) : Except GoPanic ReadinessOut :=
  match checkTokenProvider handler with
  | .error p => .error p
  | .ok (some e) =>
    .ok (.failed { status := 503, errorKind := "AuthenticationTokenNotFound", errMsg := some e })
  | .ok none => .ok (.ready 200)

/-- Whether a run was rejected by the availability gate. -/
def PipelineOut.isGated (out : PipelineOut) : Bool :=
  match out.outcome with
  | .gated _ => true
  | _ => false

/-- The failure response of a gate-rejected run, when the run was one. -/
def gatedFailure (out : PipelineOut) : Option FailureResponse :=
  match out.outcome with
  | .gated fr => some fr
  | _ => none

/-! Helper lemmas about the header model. -/

theorem headerGetAll_nil (k : String) : headerGetAll [] k = [] := rfl

theorem headerGetAll_cons (p : String × String) (hs : Headers) (k : String) :
    headerGetAll (p :: hs) k =
      if canonKey p.1 = canonKey k then p.2 :: headerGetAll hs k else headerGetAll hs k := by
  simp only [headerGetAll, List.filter_cons]
  by_cases h : canonKey p.1 = canonKey k
  · simp [h]
  · simp [h]

theorem headerGetAll_append (a b : Headers) (k : String) :
    headerGetAll (a ++ b) k = headerGetAll a k ++ headerGetAll b k := by
  simp [headerGetAll, List.filter_append]

theorem headerGetAll_filter_drop (hs : Headers) (j k : String)
    (h : canonKey j = canonKey k) :
    headerGetAll (hs.filter (fun p => canonKey p.1 != canonKey j)) k = [] := by
  induction hs with
  | nil => rfl
  | cons p rest ih =>
    simp only [List.filter_cons]
    by_cases hp : canonKey p.1 = canonKey j
    · simp [hp, ih]
    · simp only [bne_iff_ne, ne_eq, hp, not_false_eq_true, if_true,
        headerGetAll_cons, h ▸ hp, ih]
      simp [hp, h ▸ hp]

theorem headerGetAll_filter_keep (hs : Headers) (j k : String)
    (h : canonKey j ≠ canonKey k) :
    headerGetAll (hs.filter (fun p => canonKey p.1 != canonKey j)) k = headerGetAll hs k := by
  induction hs with
  | nil => rfl
  | cons p rest ih =>
    simp only [List.filter_cons]
    by_cases hp : canonKey p.1 = canonKey j
    · rw [headerGetAll_cons]
      simp [hp, h, ih]
    · simp only [bne_iff_ne, ne_eq, hp, not_false_eq_true, if_true]
      rw [headerGetAll_cons, headerGetAll_cons, ih]

theorem headerGetAll_set_self (hs : Headers) (j k v : String)
    (h : canonKey j = canonKey k) :
    headerGetAll (headerSet hs j v) k = [v] := by
  rw [headerSet, headerGetAll_append, headerGetAll_filter_drop hs j k h,
    headerGetAll_cons]
  simp [h, headerGetAll_nil]

theorem headerGetAll_set_ne (hs : Headers) (j k v : String)
    (h : canonKey j ≠ canonKey k) :
    headerGetAll (headerSet hs j v) k = headerGetAll hs k := by
  rw [headerSet, headerGetAll_append, headerGetAll_filter_keep hs j k h,
    headerGetAll_cons]
  simp [h, headerGetAll_nil]

theorem headerGet_set_self (hs : Headers) (j k v : String)
    (h : canonKey j = canonKey k) :
    headerGet (headerSet hs j v) k = v := by
  rw [headerGet, headerGetAll_set_self hs j k v h]

theorem headerGet_set_ne (hs : Headers) (j k v : String)
    (h : canonKey j ≠ canonKey k) :
    headerGet (headerSet hs j v) k = headerGet hs k := by
  rw [headerGet, headerGetAll_set_ne hs j k v h, headerGet]

theorem headerGetAll_setAll_ne (ohs : List (String × String)) (hs : Headers) (k : String)
    (h : ∀ kv ∈ ohs, canonKey kv.1 ≠ canonKey k) :
    headerGetAll (setAllHeaders hs ohs) k = headerGetAll hs k := by
  induction ohs generalizing hs with
  | nil => rfl
  | cons kv rest ih =>
    rw [setAllHeaders, ih _ (fun kv2 hm => h kv2 (List.mem_cons_of_mem kv hm)),
      headerGetAll_set_ne _ _ _ _ (h kv (List.mem_cons_self kv rest))]

theorem headerGetAll_setAll_mem (ohs : List (String × String)) (hs : Headers)
    (kv : String × String) (hd : canonDistinctB ohs = true) (hm : kv ∈ ohs) :
    headerGetAll (setAllHeaders hs ohs) kv.1 = [kv.2] := by
  induction ohs generalizing hs with
  | nil => cases hm
  | cons kv0 rest ih =>
    rw [canonDistinctB, Bool.and_eq_true, List.all_eq_true] at hd
    rcases List.mem_cons.mp hm with rfl | hmem
    · rw [setAllHeaders,
        headerGetAll_setAll_ne rest _ kv.1
          (fun kv2 hm2 => by
            have := hd.1 kv2 hm2
            rw [bne_iff_ne] at this
            exact fun he => this he.symm),
        headerGetAll_set_self _ _ _ _ rfl]
    · exact ih _ hd.2 hmem

/-- Whenever the availability gate lets a run through (provider present), the
request handed to the proxy transport is exactly `outboundRequest` of the
provider's token, regardless of how the transport then fares. -/
theorem proxyRequest_dispatched (ed : EncoderDecoder) (handler : Handler) (request : Request)
    (w : World) (tp : TokenProvider) (out : PipelineOut)
    (htp : handler.tokenProvider = some tp)
    (hrun : proxyRequest ed handler request w = .ok out) :
    out.dispatched = some (outboundRequest handler tp.token request) := by
  have hg : checkTokenProvider handler = .ok none := by
    rw [checkTokenProvider, htp]
    rfl
  rw [proxyRequest, hg] at hrun
  simp only [proxyRequestWithGate, htp] at hrun
  cases hb : w.backend with
  | respond response =>
    rw [hb] at hrun
    simp only [getAccessToken, Except.ok.injEq] at hrun
    rw [← hrun]
  | unreachable msg =>
    rw [hb] at hrun
    simp only [getAccessToken, Except.ok.injEq] at hrun
    rw [← hrun]

/-! Concrete fixtures used by the witnesses and counterexamples below. -/

/-- A configuration with no additional headers. -/
def cfg0 : Configuration :=
  { getTargetHost := "backend.example", getAdditionalHeaders := none }

/-- A plain inbound request with no headers. -/
def req0 : Request :=
  { method := "GET", urlScheme := "http", urlHost := "", urlPath := "/widgets"
    host := "proxy.local", headers := [], contentLength := 0 }

/-- A codec whose decode and encode both succeed and pass bytes through. -/
def edId : EncoderDecoder :=
  { decodeRes := fun _ bs => .ok bs
    decodeLeftover := fun _ _ => []
    encodeRes := fun _ bs => .ok bs }

/-- A 200 backend response with an empty body. -/
def resp200 : Response :=
  { statusCode := 200, headers := [], bodyStream := [], contentLength := 0 }

/-- A world where instruments acquire fine and the backend answers 200. -/
def w200 : World :=
  { instrumentOk := true, writerHeaders := [], backend := .respond resp200 }

/-- A present token provider whose `GetAccessToken` returns `("", nil)`. -/
def tpEmptyOk : TokenProvider := { token := "", errMsg := none }

/-- A handler holding the present-but-empty-token provider. -/
def hEmptyTok : Handler :=
  { targetHost := "backend.example", tokenProvider := some tpEmptyOk
    configuration := cfg0, overrideHeaders := none }

/-- C1: the claim says a present provider answering `("", nil)` makes
`checkTokenProvider` return a non-nil error and `ProxyRequest` respond 503
without dispatching. The code evaluated at exactly that input does the
opposite: because the token inspection sits under `tokenProvider == nil`, the
gate returns nil, the run is not gated, and the request is dispatched to the
backend. -/
theorem c1_present_empty_token_is_dispatched :
    checkTokenProvider hEmptyTok = .ok none
    ∧ (proxyRequest edId hEmptyTok req0 w200).toOption.map PipelineOut.isGated = some false
    ∧ ((proxyRequest edId hEmptyTok req0 w200).toOption.bind PipelineOut.dispatched).isSome
        = true :=
  ⟨rfl, rfl, rfl⟩

/-- A handler whose token provider interface value is nil. -/
def hNilProvider : Handler :=
  { targetHost := "backend.example", tokenProvider := none
    configuration := cfg0, overrideHeaders := none }

/-- C2: the claim says an absent provider makes `checkTokenProvider` return an
error without invoking `GetAccessToken`, with both `ProxyRequest` and
`ReadinessCheck` answering 503. The code evaluated at a nil provider instead
calls `GetAccessToken` through the nil interface — the runs end in the
nil-interface-call panic, and no 503 is written. -/
theorem c2_nil_provider_panics :
    checkTokenProvider hNilProvider = .error .nilInterfaceCall
    ∧ readinessCheck hNilProvider = .error .nilInterfaceCall
    ∧ proxyRequest edId hNilProvider req0 w200 = .error .nilInterfaceCall :=
  ⟨rfl, rfl, rfl⟩

/-- C3: every handler `NewHandler` actually constructs has a present provider,
for which `checkTokenProvider` returns nil whatever the provider would answer,
so the gate never rejects and `ReadinessCheck` always writes 200. -/
theorem c3_constructed_handler_never_gated (proxy : Option ReverseProxy)
    (tokenProvider : Option TokenProvider) (configuration : Option Configuration)
    (handler : Handler)
    (hnew : NewHandler proxy tokenProvider configuration = .ok handler) :
    checkTokenProvider handler = .ok none
    ∧ readinessCheck handler = .ok (.ready 200) := by
  cases proxy with
  | none => simp [NewHandler] at hnew
  | some p =>
    cases tokenProvider with
    | none => simp [NewHandler] at hnew
    | some tp =>
      cases configuration with
      | none => simp [NewHandler] at hnew
      | some cfg =>
        simp only [NewHandler, Option.isNone_some, Bool.false_eq_true, if_false,
          Option.isNone_none, Except.ok.injEq] at hnew
        have hg : checkTokenProvider handler = .ok none := by
          rw [← hnew]
          rfl
        exact ⟨hg, by rw [readinessCheck, hg]⟩

/-- The handler `NewHandler` builds from the concrete fixtures. -/
def hFromNew : Handler :=
  { targetHost := "backend.example", tokenProvider := some { token := "t", errMsg := none }
    configuration := cfg0, overrideHeaders := none }

/-- Witness for C3 at a concrete constructed handler. -/
theorem c3_constructed_handler_never_gated_witness :
    checkTokenProvider hFromNew = .ok none
    ∧ readinessCheck hFromNew = .ok (.ready 200) :=
  c3_constructed_handler_never_gated (some ⟨⟩) (some { token := "t", errMsg := none })
    (some cfg0) hFromNew rfl

/-- C4: the claim says a gate-rejected run's failure body carries the
error-kind tag together with the gate's own availability error. Evaluating the
gate-rejection branch at a concrete gate error (with the counter instrument
acquiring fine): because line 91's `:=` redeclares `err`, `FailRequest`
receives the instrument-acquisition error — nil here — so the failure response
carries the tag but not the gate's error. -/
theorem c4_gate_rejection_loses_gate_error :
    (proxyRequestWithGate edId hFromNew req0 w200 (some "availability failure")).toOption.bind
        gatedFailure
      = some { status := 503, errorKind := "AuthenticationTokenNotFound", errMsg := none }
    ∧ ((proxyRequestWithGate edId hFromNew req0 w200
          (some "availability failure")).toOption.bind gatedFailure).map FailureResponse.errMsg
        ≠ some (some "availability failure") :=
  ⟨rfl, by decide⟩

/-- C5: whenever a `ProxyRequest` run reaches a terminal path — gate rejection,
dispatch failure, or backend response — and the counter instrument acquires
fine, exactly one `requests_total` sample is emitted. -/
theorem c5_exactly_one_requests_total (ed : EncoderDecoder) (handler : Handler)
    (request : Request) (w : World) (gateErr : Option String) (out : PipelineOut)
    (hrun : proxyRequestWithGate ed handler request w gateErr = .ok out)
    (hiok : w.instrumentOk = true) :
    out.samples.length = 1 := by
  cases gateErr with
  | some e =>
    simp only [proxyRequestWithGate, hiok, if_true, Except.ok.injEq] at hrun
    rw [← hrun]
    rfl
  | none =>
    cases htp : handler.tokenProvider with
    | none =>
      simp only [proxyRequestWithGate, htp, getAccessToken] at hrun
      cases hrun
    | some tp =>
      cases hb : w.backend with
      | respond response =>
        simp only [proxyRequestWithGate, htp, getAccessToken, hb,
          Except.ok.injEq] at hrun
        rw [← hrun]
        simp [modifyResponse, hiok]
      | unreachable msg =>
        simp only [proxyRequestWithGate, htp, getAccessToken, hb,
          Except.ok.injEq] at hrun
        rw [← hrun]
        simp [handleError, samplesOfEvents, hiok]

/-- The pipeline output of a gate-rejected run on the concrete fixtures. -/
def outGate : PipelineOut :=
  { samples := [{ target_host := "", method := "GET", path := "/widgets"
                  user_agent := "", status_code := 503 }]
    dispatched := none
    outcome := .gated { status := 503, errorKind := "AuthenticationTokenNotFound"
                        errMsg := none } }

/-- Witness for C5 on the concrete gate-rejection run. -/
theorem c5_exactly_one_requests_total_witness :
    proxyRequestWithGate edId hFromNew req0 w200 (some "boom") = .ok outGate
    ∧ outGate.samples.length = 1 :=
  ⟨rfl, c5_exactly_one_requests_total edId hFromNew req0 w200 (some "boom") outGate rfl rfl⟩

/-- A codec whose decode succeeds (passing bytes through) but whose re-encode
fails. -/
def edEncodeFails : EncoderDecoder :=
  { decodeRes := fun _ bs => .ok bs
    decodeLeftover := fun _ _ => []
    encodeRes := fun _ _ => .error "encoder failure" }

/-- A gzip-tagged 500 response with three readable body bytes. -/
def resp500gz : Response :=
  { statusCode := 500
    headers := [("Content-Encoding", "gzip"), ("Content-Length", "3")]
    bodyStream := [1, 2, 3]
    contentLength := 3 }

/-- C6: the claim says that on decode or re-encode failure `logResponse`
leaves the response untouched — body bytes, ContentLength field and
Content-Length header all unchanged, and body and Content-Length only ever
rewritten together. Evaluating the re-encode-failure path: the decode step has
already read `response.Body` to its end, and the early return restores
nothing, so the readable body is now empty while ContentLength and the
Content-Length header still advertise the original three bytes — the body
changed and Content-Length did not. -/
theorem c6_encode_failure_leaves_drained_body :
    (logResponse edEncodeFails resp500gz).bodyStream = []
    ∧ resp500gz.bodyStream = [1, 2, 3]
    ∧ (logResponse edEncodeFails resp500gz).bodyStream ≠ resp500gz.bodyStream
    ∧ (logResponse edEncodeFails resp500gz).contentLength = resp500gz.contentLength
    ∧ (logResponse edEncodeFails resp500gz).headers = resp500gz.headers :=
  ⟨rfl, rfl, by decide, rfl, rfl⟩

/-- A handler whose configured override headers include an Authorization
entry. -/
def hAuthOverride : Handler :=
  { targetHost := "backend.example"
    tokenProvider := some { token := "tok", errMsg := none }
    configuration := cfg0
    overrideHeaders := some [("Authorization", "Basic xyz")] }

/-- C7 counterexample: a run that passes the gate with a provider returning
the non-empty token "tok" and no error, but whose configured override headers
contain an Authorization entry: the dispatched request's single Authorization
value is the override, not the bearer-prefixed token, so the claim as stated
fails at this input. -/
theorem c7_bearer_header_counterexample :
    ((proxyRequest edId hAuthOverride req0 w200).toOption.bind PipelineOut.dispatched).map
        (fun r => headerGetAll r.headers HEADER_AUTHORIZATION)
      = some ["Basic xyz"]
    ∧ ("Basic xyz" : String) ≠ "Bearer " ++ "tok" :=
  ⟨rfl, by decide⟩

/-- C7 as amended: when additionally no configured override header key has the
canonical form Authorization, a run that passes the gate with a provider
returning a non-empty token and no error dispatches a request whose
Authorization header is exactly the one bearer-prefixed token. -/
theorem c7_bearer_header_exactly_once (ed : EncoderDecoder) (handler : Handler)
    (request : Request) (w : World) (tp : TokenProvider) (out : PipelineOut) (r : Request)
    (htp : handler.tokenProvider = some tp)
    (htok : tp.token ≠ "")
    (herr : tp.errMsg = none)
    (hoh : ∀ kv ∈ handler.overrideHeaders.getD [], canonKey kv.1 ≠ canonKey HEADER_AUTHORIZATION)
    (hrun : proxyRequest ed handler request w = .ok out)
    (hdis : out.dispatched = some r) :
    headerGetAll r.headers HEADER_AUTHORIZATION = ["Bearer " ++ tp.token] := by
  have hr : r = outboundRequest handler tp.token request := by
    have := proxyRequest_dispatched ed handler request w tp out htp hrun
    rw [hdis] at this
    exact Option.some.inj this
  subst hr
  rw [outboundRequest]
  cases hov : handler.overrideHeaders with
  | none =>
    simp only [modifyRequest]
    exact headerGetAll_set_self _ _ _ _ rfl
  | some ohs =>
    simp only [modifyRequest]
    rw [headerGetAll_setAll_ne ohs _ HEADER_AUTHORIZATION
      (fun kv hm => hoh kv (by rw [hov]; exact hm))]
    exact headerGetAll_set_self _ _ _ _ rfl

/-- A handler with a provider token "tok" and one benign override header. -/
def hExtraOverride : Handler :=
  { targetHost := "backend.example"
    tokenProvider := some { token := "tok", errMsg := none }
    configuration := cfg0
    overrideHeaders := some [("X-Extra", "1")] }

/-- Witness for the amended C7 on a concrete run. -/
theorem c7_bearer_header_exactly_once_witness :
    headerGetAll (outboundRequest hExtraOverride "tok" req0).headers HEADER_AUTHORIZATION
      = ["Bearer " ++ "tok"] :=
  c7_bearer_header_exactly_once edId hExtraOverride req0 w200
    { token := "tok", errMsg := none } _ _ rfl (by decide) rfl (by decide) rfl rfl

/-- A handler configured with two override keys that differ only in case, a
pair of keys a Go map admits as distinct entries. -/
def hCaseClash : Handler :=
  { targetHost := "backend.example"
    tokenProvider := some { token := "tok", errMsg := none }
    configuration := cfg0
    overrideHeaders := some [("X-A", "1"), ("x-a", "2")] }

/-- A handler with no override headers configured. -/
def hNoOverride : Handler :=
  { targetHost := "backend.example"
    tokenProvider := some { token := "tok", errMsg := none }
    configuration := cfg0
    overrideHeaders := none }

/-- An inbound request that carries an Authorization credential. -/
def reqAuth : Request :=
  { method := "GET", urlScheme := "http", urlHost := "", urlPath := "/widgets"
    host := "proxy.local", headers := [("Authorization", "inbound-cred")]
    contentLength := 0 }

/-- C8 counterexample, in two parts. First: with override keys "X-A" and
"x-a" configured (distinct Go map keys, same canonical header), the dispatched
request's header for the configured pair ("X-A", "1") is "2", not the
configured "1" — `Header.Set` collapses both writes onto one canonical key.
Second: with no override headers configured, an inbound Authorization value is
nevertheless overridden by the always-injected bearer token. -/
theorem c8_override_headers_counterexample :
    (("X-A", "1") ∈ hCaseClash.overrideHeaders.getD [])
    ∧ ((proxyRequest edId hCaseClash req0 w200).toOption.bind PipelineOut.dispatched).map
        (fun r => headerGetAll r.headers "X-A") = some ["2"]
    ∧ (["2"] : List String) ≠ ["1"]
    ∧ ((proxyRequest edId hNoOverride reqAuth w200).toOption.bind PipelineOut.dispatched).map
        (fun r => headerGetAll r.headers "Authorization") = some ["Bearer tok"]
    ∧ headerGetAll reqAuth.headers "Authorization" = ["inbound-cred"]
    ∧ (["Bearer tok"] : List String) ≠ ["inbound-cred"] :=
  ⟨by decide, rfl, by decide, rfl, rfl, by decide⟩

/-- C8 as amended: (1) for every configured override pair, provided the
configured keys' canonical forms are pairwise distinct, the dispatched
request's header for that key is exactly the configured value, replacing
whatever the inbound request carried; (2) with no override headers configured,
every inbound header other than the always-rewritten Authorization reaches the
dispatched request unchanged. -/
theorem c8_override_headers_apply :
    (∀ (ed : EncoderDecoder) (handler : Handler) (request : Request) (w : World)
        (tp : TokenProvider) (ohs : List (String × String)) (out : PipelineOut) (r : Request)
        (kv : String × String),
      handler.tokenProvider = some tp →
      handler.overrideHeaders = some ohs →
      canonDistinctB ohs = true →
      kv ∈ ohs →
      proxyRequest ed handler request w = .ok out →
      out.dispatched = some r →
      headerGetAll r.headers kv.1 = [kv.2])
    ∧ (∀ (ed : EncoderDecoder) (handler : Handler) (request : Request) (w : World)
        (tp : TokenProvider) (out : PipelineOut) (r : Request) (k : String),
      handler.tokenProvider = some tp →
      handler.overrideHeaders = none →
      proxyRequest ed handler request w = .ok out →
      out.dispatched = some r →
      canonKey k ≠ canonKey HEADER_AUTHORIZATION →
      headerGetAll r.headers k = headerGetAll request.headers k) := by
  constructor
  · intro ed handler request w tp ohs out r kv htp hov hd hm hrun hdis
    have hr : r = outboundRequest handler tp.token request := by
      have := proxyRequest_dispatched ed handler request w tp out htp hrun
      rw [hdis] at this
      exact Option.some.inj this
    subst hr
    simp only [outboundRequest, hov, modifyRequest]
    exact headerGetAll_setAll_mem ohs _ kv hd hm
  · intro ed handler request w tp out r k htp hov hrun hdis hk
    have hr : r = outboundRequest handler tp.token request := by
      have := proxyRequest_dispatched ed handler request w tp out htp hrun
      rw [hdis] at this
      exact Option.some.inj this
    subst hr
    simp only [outboundRequest, hov, modifyRequest]
    exact headerGetAll_set_ne _ _ _ _ (Ne.symm hk)

/-- Witness for the amended C8: part one on the benign-override handler, part
two on the override-free handler with an inbound credential. -/
theorem c8_override_headers_apply_witness :
    headerGetAll (outboundRequest hExtraOverride "tok" req0).headers "X-Extra" = ["1"]
    ∧ headerGetAll (outboundRequest hNoOverride "tok" reqAuth).headers "X-Query"
        = headerGetAll reqAuth.headers "X-Query" :=
  ⟨c8_override_headers_apply.1 edId hExtraOverride req0 w200 { token := "tok", errMsg := none }
      [("X-Extra", "1")] _ _ ("X-Extra", "1") rfl rfl (by decide) (by decide) rfl rfl,
    c8_override_headers_apply.2 edId hNoOverride reqAuth w200 { token := "tok", errMsg := none }
      _ _ "X-Query" rfl rfl rfl rfl (by decide)⟩

/-- C9: on a dispatch failure (instrument acquisition succeeding),
`handleError` takes the status from parsing the writer's Status-Code header —
503 when the parse fails, which includes an absent header — and emits one
`requests_total` sample keyed by (target_host, method, path, user_agent,
status_code) with that status before producing the uniform failure response. -/
theorem c9_dispatch_failure_status_and_sample (writerHeaders : Headers) (request : Request)
    (responseErr : String) :
    (parseGoInt32 (headerGet writerHeaders HEADER_STATUS_CODE) = none →
      handleError writerHeaders request responseErr true
        = [.metric { target_host := request.urlHost, method := request.method
                     path := request.urlPath
                     user_agent := headerGet request.headers HEADER_USER_AGENT
                     status_code := 503 },
           .fail { status := 503, errorKind := responseErr, errMsg := some responseErr }])
    ∧ (∀ n : Int, parseGoInt32 (headerGet writerHeaders HEADER_STATUS_CODE) = some n →
      handleError writerHeaders request responseErr true
        = [.metric { target_host := request.urlHost, method := request.method
                     path := request.urlPath
                     user_agent := headerGet request.headers HEADER_USER_AGENT
                     status_code := n },
           .fail { status := n, errorKind := responseErr, errMsg := some responseErr }]) := by
  constructor
  · intro hp
    simp [handleError, hp]
  · intro n hp
    simp [handleError, hp]

/-- Witness for C9 with a parsable Status-Code header of 500. -/
theorem c9_dispatch_failure_status_and_sample_witness :
    handleError [("Status-Code", "500")] req0 "connection refused" true
      = [.metric { target_host := "", method := "GET", path := "/widgets"
                   user_agent := "", status_code := 500 },
         .fail { status := 500, errorKind := "connection refused"
                 errMsg := some "connection refused" }] :=
  (c9_dispatch_failure_status_and_sample [("Status-Code", "500")] req0
    "connection refused").2 500 rfl

/-- C10: for a gzip-tagged backend response with status 500 whose body the
codec decodes to `content`, re-encodes to `buffer`, and whose re-encode
decodes back to the same `content` (the spec's round-trip modulo
re-compression), the response interceptor leaves a body equal to `buffer` —
so with decoded content byte-identical to the original — and sets both the
ContentLength field and the Content-Length header to the exact byte length of
the re-encoded body. -/
theorem c10_gzip_roundtrip (ed : EncoderDecoder) (instrumentOk : Bool) (request : Request)
    (response : Response) (content buffer : List Nat)
    (h500 : response.statusCode = 500)
    (henc : headerGet response.headers HEADER_CONTENT_ENCODING = "gzip")
    (hdec : ed.decodeRes "gzip" response.bodyStream = .ok content)
    (henok : ed.encodeRes "gzip" content = .ok buffer)
    (hrt : ed.decodeRes "gzip" buffer = .ok content) :
    ((modifyResponse ed instrumentOk request response).1.bodyStream = buffer)
    ∧ ed.decodeRes "gzip" (modifyResponse ed instrumentOk request response).1.bodyStream
        = .ok content
    ∧ (modifyResponse ed instrumentOk request response).1.contentLength = (buffer.length : Int)
    ∧ headerGet (modifyResponse ed instrumentOk request response).1.headers
        HEADER_CONTENT_LENGTH = toString buffer.length := by
  have hne1 : canonKey HEADER_STATUS_CODE ≠ canonKey HEADER_CONTENT_ENCODING := by decide
  have hne2 : canonKey HEADER_CONTENT_ENCODING ≠ canonKey HEADER_CONTENT_LENGTH := by decide
  have hmr : (modifyResponse ed instrumentOk request response).1
      = logResponse ed { response with
          headers := headerSet response.headers HEADER_STATUS_CODE
            (toString response.statusCode) } := by
    simp only [modifyResponse, h500]
    norm_num
  have hencStep : headerGet
      (headerSet response.headers HEADER_STATUS_CODE (toString response.statusCode))
      HEADER_CONTENT_ENCODING = "gzip" := by
    rw [headerGet_set_ne _ _ _ _ hne1]
    exact henc
  have hlog : logResponse ed { response with
        headers := headerSet response.headers HEADER_STATUS_CODE
          (toString response.statusCode) }
      = { response with
          bodyStream := buffer
          contentLength := (buffer.length : Int)
          headers := headerSet
            (headerSet
              (headerSet response.headers HEADER_STATUS_CODE (toString response.statusCode))
              HEADER_CONTENT_LENGTH (toString buffer.length))
            HEADER_CONTENT_ENCODING "gzip" } := by
    simp only [logResponse, hencStep, hdec, henok]
  rw [hmr, hlog]
  refine ⟨rfl, hrt, rfl, ?_⟩
  rw [headerGet_set_ne _ _ _ _ hne2, headerGet_set_self _ _ _ _ rfl]

/-- A concrete invertible "gzip" codec: encoding prepends a marker byte,
decoding strips it. -/
def edGz : EncoderDecoder :=
  { decodeRes := fun enc bs =>
      if enc = "gzip" then
        match bs with
        | 0 :: rest => .ok rest
        | _ => .error "gzip: invalid header"
      else .ok bs
    decodeLeftover := fun _ _ => []
    encodeRes := fun enc bs => if enc = "gzip" then .ok (0 :: bs) else .ok bs }

/-- A gzip-tagged 500 response whose encoded body is the marker byte plus two
content bytes. -/
def respGz : Response :=
  { statusCode := 500, headers := [("Content-Encoding", "gzip")]
    bodyStream := [0, 7, 7], contentLength := 3 }

/-- Witness for C10 on the concrete codec and response. -/
theorem c10_gzip_roundtrip_witness :
    ((modifyResponse edGz true req0 respGz).1.bodyStream = [0, 7, 7])
    ∧ edGz.decodeRes "gzip" (modifyResponse edGz true req0 respGz).1.bodyStream = .ok [7, 7]
    ∧ (modifyResponse edGz true req0 respGz).1.contentLength = (3 : Int)
    ∧ headerGet (modifyResponse edGz true req0 respGz).1.headers HEADER_CONTENT_LENGTH = "3" :=
  c10_gzip_roundtrip edGz true req0 respGz [7, 7] [0, 7, 7] rfl rfl rfl rfl rfl

end AadAuthProxy
